import Mathlib

/-!
Verification of the core data-handling and route-optimization logic of the
"otimizador-de-rotas-e-mapas" repository, against its natural-language
specification.  The Python sources are shallowly embedded here:

* `src/utils.py`          — `haversine_distance` (real-valued model)
* `src/data_handler.py`   — `_validate_coordinates`, `_auto_detect_and_standardize_columns`,
                            `clean_data`, `extract_coords_from_text`
* `src/optimizer.py`      — `ortools_optimizer` (the external OR-Tools solver is
                            modelled by its documented routing contract)
* `src/services.py`       — the pre-network payload construction of
                            `optimize_route_online`

Python floats are modelled by exact rational values where the code parses and
compares decimal literals (a decimal literal of the magnitudes handled here
converts to the double nearest its exact value, and the comparisons the code
performs agree on the two), and by real numbers in the trigonometric distance
computation.  Machine-precision rounding is outside the model; every claim
settled here depends only on value-level behaviour that is identical in the
model and in the code on the inputs considered.
-/

/-- Outcome of Python's `float(x)` conversion as used by
`_validate_coordinates` in `src/data_handler.py`: a finite value, a NaN, an
infinity, or a conversion failure (`ValueError`/`TypeError`, e.g. `None` or a
non-numeric string). -/
inductive FloatVal where
  | finite (q : ℚ)
  | nan
  | inf
  | neginf
  | nonnumeric
deriving DecidableEq

/-- Embedding of `_validate_coordinates(latitude, longitude)`
(`src/data_handler.py`).  The Python body is
`try: return -90 <= float(latitude) <= 90 and -180 <= float(longitude) <= 180`
with `except (ValueError, TypeError): return False`.  A NaN makes every
comparison false, an infinity falls outside both ranges, and a conversion
failure lands in the `except` branch; in all three cases the function returns
`False` (never raises), which the catch-all last match arm reflects. -/
def _validate_coordinates (latitude longitude : FloatVal) : Bool :=
  match latitude, longitude with
  | .finite la, .finite lo =>
    decide (-90 ≤ la) && decide (la ≤ 90) && decide (-180 ≤ lo) && decide (lo ≤ 180)
  | _, _ => false

/-- Validation of two already-parsed finite numbers, as `extract_coords_from_text`
calls `_validate_coordinates` on `float` values it has just produced. -/
def validateQ (la lo : ℚ) : Bool :=
  _validate_coordinates (.finite la) (.finite lo)

/-- Exact value of a decimal literal matched by the regex `-?\d+\.\d+`:
the rational `m / 10 ^ e`.  Kept in scaled-integer form so that concrete runs
of the extraction pipeline evaluate inside the kernel. -/
structure Dec where
  m : ℤ
  e : ℕ
deriving DecidableEq

/-- Rational value of a matched decimal literal. -/
def Dec.toRat (d : Dec) : ℚ :=
  (d.m : ℚ) / (10 : ℚ) ^ d.e

/-- The comparison chain of `_validate_coordinates` evaluated on two matched
decimal literals, in scaled-integer form (`m / 10^e ≤ n ↔ m ≤ n·10^e`).
`validateDec_eq_validateQ` proves this equal to `validateQ` on the values. -/
def validateDec (la lo : Dec) : Bool :=
  decide (-(90 * 10 ^ la.e) ≤ la.m) && decide (la.m ≤ 90 * 10 ^ la.e) &&
    decide (-(180 * 10 ^ lo.e) ≤ lo.m) && decide (lo.m ≤ 180 * 10 ^ lo.e)

/-- Value of a list of ASCII digit characters, most significant first. -/
def digitsToNat (ds : List Char) : ℕ :=
  ds.foldl (fun acc c => 10 * acc + (c.toNat - 48)) 0

/-- Exact value of a decimal literal with optional minus sign, integer digits
`ip` and fractional digits `fp` (the text that the regex `-?\d+\.\d+` of
`extract_coords_from_text` matches, fed to Python `float`). -/
def mkNum (neg : Bool) (ip fp : List Char) : Dec :=
  let mag : ℤ := digitsToNat ip * 10 ^ fp.length + digitsToNat fp
  ⟨if neg then -mag else mag, fp.length⟩

/-- Matcher for the regex `-?\d+\.\d+` anchored at the head of `l`:
an optional minus sign, a maximal nonempty digit run, a dot, a maximal
nonempty digit run.  Returns the parsed value and the remaining text.
Maximal-munch is faithful to the regex: `\d+` cannot give back a digit to
let `\.` match, so greedy matching never needs backtracking here. -/
def matchNum (l : List Char) : Option (Dec × List Char) :=
  let p : Bool × List Char :=
    match l with
    | '-' :: rest => (true, rest)
    | _ => (false, l)
  let ip := p.2.takeWhile Char.isDigit
  let l2 := p.2.dropWhile Char.isDigit
  if ip.isEmpty then none
  else
    match l2 with
    | '.' :: l3 =>
      let fp := l3.takeWhile Char.isDigit
      let l4 := l3.dropWhile Char.isDigit
      if fp.isEmpty then none else some (mkNum p.1 ip fp, l4)
    | _ => none

/-- Fuelled driver of `re.findall(r"-?\d+\.\d+", text)`: try a match at every
position, left to right; after a match continue behind it.  Each step strictly
shortens the text, so fuel `l.length` (supplied by `findNumbers`) is never
exhausted early. -/
def findNumbersAux : ℕ → List Char → List Dec
  | 0, _ => []
  | _, [] => []
  | fuel + 1, c :: cs =>
    match matchNum (c :: cs) with
    | some (q, rest) => q :: findNumbersAux fuel rest
    | none => findNumbersAux fuel cs

/-- Embedding of `re.findall(r"-?\d+\.\d+", text_cleaned)` from
`extract_coords_from_text`. -/
def findNumbers (l : List Char) : List Dec :=
  findNumbersAux l.length l

/-- Fuelled driver of `re.search(r"@(-?\d+\.\d+),(-?\d+\.\d+)", text)`:
the leftmost match wins; a failed attempt at one `@` resumes the scan at the
next character. -/
def atSearchAux : ℕ → List Char → Option (Dec × Dec)
  | 0, _ => none
  | _, [] => none
  | fuel + 1, c :: cs =>
    if c = '@' then
      match matchNum cs with
      | some (a, ',' :: r1) =>
        match matchNum r1 with
        | some (b, _) => some (a, b)
        | none => atSearchAux fuel cs
      | _ => atSearchAux fuel cs
    else atSearchAux fuel cs

/-- Embedding of the `@lat,lon` search of `extract_coords_from_text`. -/
def atSearch (l : List Char) : Option (Dec × Dec) :=
  atSearchAux l.length l

/-- Matcher for one alternative of
`!2d(-?\d+\.\d+)!3d(-?\d+\.\d+)|!3d(-?\d+\.\d+)!4d(-?\d+\.\d+)` anchored at
the head of `l`.  The Boolean tags which alternative matched: `false` for the
`!2d…!3d…` branch (first number is group 1, the `!2d` value; second is group
2, the `!3d` value), `true` for the `!3d…!4d…` branch (first number is group
3, the `!3d` value; second is group 4, the `!4d` value).  The two
alternatives start with different literals, so at most one can match at a
given position, exactly as in the Python alternation. -/
def matchDirAt (l : List Char) : Option ((Bool × Dec × Dec) × List Char) :=
  match l with
  | '!' :: '2' :: 'd' :: r1 =>
    (match matchNum r1 with
     | some (a, '!' :: '3' :: 'd' :: r2) =>
       (match matchNum r2 with
        | some (b, rest) => some ((false, a, b), rest)
        | none => none)
     | _ => none)
  | '!' :: '3' :: 'd' :: r1 =>
    (match matchNum r1 with
     | some (a, '!' :: '4' :: 'd' :: r2) =>
       (match matchNum r2 with
        | some (b, rest) => some ((true, a, b), rest)
        | none => none)
     | _ => none)
  | _ => none

/-- Fuelled driver of the `re.findall` over the directions-marker pattern:
all non-overlapping matches, left to right. -/
def dirFindAux : ℕ → List Char → List (Bool × Dec × Dec)
  | 0, _ => []
  | _, [] => []
  | fuel + 1, c :: cs =>
    match matchDirAt (c :: cs) with
    | some (m, rest) => m :: dirFindAux fuel rest
    | none => dirFindAux fuel cs

/-- Embedding of `re.findall(r"!2d(…)!3d(…)|!3d(…)!4d(…)", text_cleaned)`. -/
def dirFindall (l : List Char) : List (Bool × Dec × Dec) :=
  dirFindAux l.length l

/-- The line `lat, lon = (m[2], m[3]) if m[2] else (m[1], m[0])` of
`extract_coords_from_text`: for a `!2d…!3d…` match groups 3 and 4 are empty
strings (falsy), so latitude is group 2 (the `!3d` number) and longitude group
1 (the `!2d` number); for a `!3d…!4d…` match latitude is group 3 and longitude
group 4. -/
def dirLatLon : Bool × Dec × Dec → Dec × Dec
  | (false, lon2d, lat3d) => (lat3d, lon2d)
  | (true, lat3d, lon4d) => (lat3d, lon4d)

/-- The `for m in dir_match` loop of `extract_coords_from_text`: the first
match whose (lat, lon) reading validates is returned. -/
def firstValidDir : List (Bool × Dec × Dec) → Option (Dec × Dec)
  | [] => none
  | m :: ms =>
    match dirLatLon m with
    | (la, lo) => if validateDec la lo then some (la, lo) else firstValidDir ms

/-- Fuelled driver of `re.search(r"\?q=(-?\d+\.\d+),(-?\d+\.\d+)", text)`. -/
def qSearchAux : ℕ → List Char → Option (Dec × Dec)
  | 0, _ => none
  | _, [] => none
  | fuel + 1, c :: cs =>
    match c :: cs with
    | '?' :: 'q' :: '=' :: r0 =>
      (match matchNum r0 with
       | some (a, ',' :: r1) =>
         (match matchNum r1 with
          | some (b, _) => some (a, b)
          | none => qSearchAux fuel cs)
       | _ => qSearchAux fuel cs)
    | _ => qSearchAux fuel cs

/-- Embedding of the `?q=lat,lon` search of `extract_coords_from_text`. -/
def qSearch (l : List Char) : Option (Dec × Dec) :=
  qSearchAux l.length l

/-- Characters removed by `re.sub(r"[°'\"()NnSsOoWwEe]", "", text_cleaned)`:
degree sign, apostrophe (`Char.ofNat 39`), double quote (`Char.ofNat 34`),
parentheses and the direction letters. -/
def strippedChars : List Char :=
  ['°', Char.ofNat 39, Char.ofNat 34, '(', ')', 'N', 'n', 'S', 's', 'O', 'o', 'W', 'w', 'E', 'e']

/-- Embedding of the `re.sub` deletion of degree/direction decorations. -/
def cleanText (l : List Char) : List Char :=
  l.filter (fun c => !(strippedChars.contains c))

/-- Python's `str.strip()`: drop leading and trailing whitespace. -/
def pyStrip (l : List Char) : List Char :=
  ((l.dropWhile Char.isWhitespace).reverse.dropWhile Char.isWhitespace).reverse

/-- Strategy 3 of `extract_coords_from_text` (first two decimal numbers of the
cleaned text, tried as (lat, lon) and then swapped).  The Python `try/except`
around `float` cannot fire on regex-matched text, and the exact model never
fails, so no failure branch appears. -/
def stepNumbers (tc : List Char) : Option (Dec × Dec) :=
  match findNumbers tc with
  | n1 :: n2 :: _ =>
    if validateDec n1 n2 then some (n1, n2)
    else if validateDec n2 n1 then some (n2, n1)
    else none
  | _ => none

/-- Strategy 4a of `extract_coords_from_text`: the first `@lat,lon` match, if
it validates. -/
def stepAt (tc : List Char) : Option (Dec × Dec) :=
  match atSearch tc with
  | some (la, lo) => if validateDec la lo then some (la, lo) else none
  | none => none

/-- Strategy 4b of `extract_coords_from_text`: first validating
directions-marker match. -/
def stepDir (tc : List Char) : Option (Dec × Dec) :=
  firstValidDir (dirFindall tc)

/-- Strategy 4c of `extract_coords_from_text`: the first `?q=lat,lon` match,
if it validates. -/
def stepQ (tc : List Char) : Option (Dec × Dec) :=
  match qSearch tc with
  | some (la, lo) => if validateDec la lo then some (la, lo) else none
  | none => none

/-- Embedding of `extract_coords_from_text` on a string input
(`src/data_handler.py`).  The text is stripped, then cleaned of
degree/direction decorations, then the strategies run in source order, each
returning as soon as its candidate pair validates.  The best-effort
`maps.app.goo.gl` redirect resolution is network I/O that on failure leaves
the text unchanged; the model works on the text as it stands after that step,
so every theorem below reads on the post-resolution text. -/
def extract_coords_from_string (s : String) : Option (Dec × Dec) :=
  let tc := cleanText (pyStrip s.data)
  match stepNumbers tc with
  | some r => some r
  | none =>
    match stepAt tc with
    | some r => some r
    | none =>
      match stepDir tc with
      | some r => some r
      | none => stepQ tc

/-- Python values reaching `extract_coords_from_text`: a string or one of the
non-string values the `isinstance` guard rejects (None, a number, a NaN). -/
inductive PyVal where
  | str (s : String)
  | none_v
  | num (q : ℚ)
  | nan
deriving DecidableEq

/-- Embedding of `extract_coords_from_text` including its first line
`if not isinstance(text, str): return None`. -/
def extract_coords_from_text (v : PyVal) : Option (Dec × Dec) :=
  match v with
  | .str s => extract_coords_from_string s
  | _ => none

/-- Value view of the extraction result: the rational coordinates the returned
floats carry. -/
def extractedCoords (v : PyVal) : Option (ℚ × ℚ) :=
  (extract_coords_from_text v).map (fun p => (p.1.toRat, p.2.toRat))


/-- The keyword table of `_auto_detect_and_standardize_columns`
(`src/data_handler.py`): for each canonical column name, the synonym list
scanned in order. -/
def keywords : List (String × List String) :=
  [("Latitude", ["latitude", "lat"]),
   ("Longitude", ["longitude", "lon", "lng"]),
   ("Nome", ["nome", "name", "título", "ref", "ponto", "local", "referencia"]),
   ("Link", ["link", "url", "gmaps", "maps"])]

/-- Python `str.lower()` restricted to the ASCII mapping (the keyword table
and every input considered here is ASCII apart from `título`, which is
already lower case). -/
def pyLower (s : String) : String :=
  String.mk (s.data.map Char.toLower)

/-- Lookup in `df_cols_lower = {c.lower(): c for c in df.columns}`: the
dictionary comprehension lets a later column overwrite an earlier one with the
same lowercase form, hence the reverse search. -/
def lowerGet (cols : List String) (k : String) : Option String :=
  cols.reverse.find? (fun c => pyLower c == k)

/-- One iteration of the outer loop of `_auto_detect_and_standardize_columns`:
skip the canonical name if it is already a column; otherwise take the first
synonym present among the lowercased column names and map the column carrying
it to the canonical name. -/
def detectField (cols : List String) (std : String) (kws : List String) :
    Option (String × String) :=
  if cols.contains std then none
  else
    match kws.find? (fun kw => (lowerGet cols kw).isSome) with
    | some kw =>
      match lowerGet cols kw with
      | some orig => some (orig, std)
      | none => none
    | none => none

/-- Embedding of the `rename_map` built by `_auto_detect_and_standardize_columns`,
as an association list from original to canonical column name, in keyword-table
order.  The synonym lists of distinct canonical fields are disjoint, so no
original column is mapped twice and the association list is the Python dict. -/
def _auto_detect_and_standardize_columns (cols : List String) : List (String × String) :=
  keywords.filterMap (fun p => detectField cols p.1 p.2)

/-- The column list after `df.rename(columns=rename_map)`. -/
def renameColumns (cols : List String) : List String :=
  let rm := _auto_detect_and_standardize_columns cols
  cols.map (fun c => (List.lookup c rm).getD c)

/-- The coercion `pd.to_numeric(column, errors="coerce")` applies to one cell:
numeric values pass through and anything unparseable becomes NaN. -/
def to_numeric_coerce : FloatVal → FloatVal
  | .nonnumeric => .nan
  | v => v

/-- Both coordinate cells of a row after the two `pd.to_numeric` lines of
`clean_data`; the payload `r.1` models every other column of the row. -/
def coerceRow {α : Type} (r : α × FloatVal × FloatVal) : α × FloatVal × FloatVal :=
  (r.1, to_numeric_coerce r.2.1, to_numeric_coerce r.2.2)

/-- The predicate of `df.dropna(subset=["Latitude", "Longitude"])`. -/
def notNanRow {α : Type} (r : α × FloatVal × FloatVal) : Bool :=
  !(r.2.1 == FloatVal.nan) && !(r.2.2 == FloatVal.nan)

/-- The row predicate of the `df.apply(... _validate_coordinates ...)` mask. -/
def validRow {α : Type} (r : α × FloatVal × FloatVal) : Bool :=
  _validate_coordinates r.2.1 r.2.2

/-- Embedding of `clean_data` (`src/data_handler.py`): if either coordinate
column is missing the function returns an empty frame; otherwise both columns
are coerced to numbers, rows with a NaN coordinate are dropped, and the
remaining rows are filtered through `_validate_coordinates`. -/
def clean_data {α : Type} (hasLat hasLon : Bool) (rows : List (α × FloatVal × FloatVal)) :
    List (α × FloatVal × FloatVal) :=
  if hasLat && hasLon then
    (((rows.map coerceRow).filter notNanRow).filter validRow)
  else []

/-- The request body `optimize_route_online` (`src/services.py`) builds for
the `/optimization` call: the jobs list and the single vehicle's start and end
coordinates, each coordinate in the `[lon, lat]` order of
`df[["Longitude", "Latitude"]]`. -/
structure OnlinePayload where
  jobs : List (ℕ × FloatVal × FloatVal)
  vehicleStart : FloatVal × FloatVal
  vehicleEnd : FloatVal × FloatVal
deriving DecidableEq

/-- The part of `optimize_route_online` that runs before any network request:
`coords` extraction, the `jobs` comprehension over `enumerate(coords)` keeping
every index other than `start_node` and `end_node`, and the vehicle record
reading `coords[start_node]` and `coords[end_node]`.  An out-of-range start or
end index raises `IndexError` there, which the function's `except` clause
turns into `None` — the only way the solve ends before the first network
call; this is the `none` branch.  A row is `(Latitude, Longitude)`. -/
def optimize_route_online_payload (df : List (FloatVal × FloatVal)) (start_node end_node : ℕ) :
    Option OnlinePayload :=
  let coords := df.map (fun r => (r.2, r.1))
  let jobs := coords.enum.filter (fun p => p.1 != start_node && p.1 != end_node)
  if h : start_node < coords.length ∧ end_node < coords.length then
    some { jobs := jobs,
           vehicleStart := coords.get ⟨start_node, h.1⟩,
           vehicleEnd := coords.get ⟨end_node, h.2⟩ }
  else none

/-- Modelled from the spec: the OR-Tools routing library called by
`ortools_optimizer` is external to this repository.  Its documented contract
for `RoutingIndexManager(n, 1, [s], [e])` gives the single vehicle a dedicated
start index and a dedicated end index — distinct solver indices even when
`s = e` — and a feasible solution is a chain from the start index to the end
index that visits every other routing index exactly once.  The model stores
the chain's interior as `mid`, a permutation of the node indices other than
`s` and `e` (those two are represented by the vehicle's dedicated indices
`n` and `n + 1`). -/
structure RoutingSolution (n s e : ℕ) where
  mid : List ℕ
  mid_perm : mid.Perm ((List.range n).filter (fun i => i != s && i != e))

/-- The `manager.IndexToNode` mapping for `RoutingIndexManager(n, 1, [s], [e])`:
the vehicle's start index maps to node `s`, its end index to node `e`, and
interior indices map to themselves. -/
def manager_IndexToNode (n s e i : ℕ) : ℕ :=
  if i = n then s else if i = n + 1 then e else i

/-- The route-extraction loop of `ortools_optimizer`: walk the solution chain
from `routing.Start(0)` collecting `manager.IndexToNode(index)`, then append
the end node after the loop.  The chain of a feasible solution is
`start :: mid ++ [end]` in solver indices. -/
def extractedRouteNodes (n s e : ℕ) (sol : RoutingSolution n s e) : List ℕ :=
  (n :: sol.mid ++ [n + 1]).map (manager_IndexToNode n s e)

/-- Embedding of `ortools_optimizer` (`src/optimizer.py`).  A frame of `n ≤ 2`
points is returned unchanged before any solver call; otherwise the solver
outcome is `sol` (`none` models `SolveWithParameters` finding no solution, in
which case the original frame is returned), and on success the frame is
reindexed by the extracted route, `df.iloc[route_indices]`. -/
def ortools_optimizer {P : Type} [Inhabited P] (df : List P) (start_node end_node : ℕ)
    (sol : Option (RoutingSolution df.length start_node end_node)) : List P :=
  if df.length ≤ 2 then df
  else
    match sol with
    | some s => (extractedRouteNodes df.length start_node end_node s).map (fun i => df.getD i default)
    | none => df

/-- Python's `math.atan2(y, x)` on real numbers: the angle of the point
`(x, y)`, in `(-π, π]`.  Signed zeros do not exist in `ℝ`; `atan2 0 0 = 0`
matches `math.atan2(0.0, 0.0)`. -/
noncomputable def atan2 (y x : ℝ) : ℝ :=
  if 0 < x then Real.arctan (y / x)
  else if x < 0 then
    (if 0 ≤ y then Real.arctan (y / x) + Real.pi else Real.arctan (y / x) - Real.pi)
  else
    (if 0 < y then Real.pi / 2 else if y < 0 then -(Real.pi / 2) else 0)

/-- Python's `math.radians`. -/
noncomputable def math_radians (x : ℝ) : ℝ :=
  x * (Real.pi / 180)

/-- Python's `int()` applied to a nonnegative-or-negative float: truncation
toward zero. -/
noncomputable def pyTrunc (x : ℝ) : ℤ :=
  if 0 ≤ x then ⌊x⌋ else ⌈x⌉

/-- Embedding of `haversine_distance` (`src/utils.py`) over real numbers,
line by line: degree inputs converted with `math.radians`, the haversine
intermediate `a`, the central angle `c = 2 * atan2(sqrt(a), sqrt(1 - a))`,
and `int(R * c)`.  `Real.sqrt` is total where Python's `math.sqrt` would
raise on a negative argument; `haversineIntermediate_le_one` shows `1 - a`
is never negative, so the two agree everywhere. -/
noncomputable def haversine_distance (lat1 lon1 lat2 lon2 : ℝ) : ℤ :=
  let R : ℝ := 6371000
  let lat1_rad := math_radians lat1
  let lon1_rad := math_radians lon1
  let lat2_rad := math_radians lat2
  let lon2_rad := math_radians lon2
  let delta_lat := lat2_rad - lat1_rad
  let delta_lon := lon2_rad - lon1_rad
  let a := Real.sin (delta_lat / 2) ^ 2 +
    Real.cos lat1_rad * Real.cos lat2_rad * Real.sin (delta_lon / 2) ^ 2
  let c := 2 * atan2 (Real.sqrt a) (Real.sqrt (1 - a))
  pyTrunc (R * c)

/-- The haversine of an angle, `sin²(θ/2)`, as the spec's formula uses it. -/
noncomputable def hav (θ : ℝ) : ℝ :=
  Real.sin (θ / 2) ^ 2

/-- Modelled from the spec's words for comparison with the code: "the
haversine great-circle formula with Earth radius 6 371 000 m; inputs in
degrees, converted to radians internally", in its standard
`d = 2 R arcsin(√(hav Δφ + cos φ₁ cos φ₂ hav Δλ))` form, before the final
truncation to an integer. -/
noncomputable def haversineSpecMeters (lat1 lon1 lat2 lon2 : ℝ) : ℝ :=
  let φ1 := math_radians lat1
  let φ2 := math_radians lat2
  let lng1 := math_radians lon1
  let lng2 := math_radians lon2
  2 * 6371000 *
    Real.arcsin (Real.sqrt (hav (φ2 - φ1) + Real.cos φ1 * Real.cos φ2 * hav (lng2 - lng1)))

/-- The scaled-integer validation agrees with `_validate_coordinates` on the
values of the matched literals. -/
theorem validateDec_eq_validateQ (la lo : Dec) :
    validateDec la lo = validateQ la.toRat lo.toRat := by
  have hpos : ∀ e : ℕ, (0 : ℚ) < (10 : ℚ) ^ e := fun e => by positivity
  unfold validateDec validateQ _validate_coordinates Dec.toRat
  have h1 : (-(90 * 10 ^ la.e) ≤ la.m) ↔ (-90 ≤ (la.m : ℚ) / (10 : ℚ) ^ la.e) := by
    rw [le_div_iff₀ (hpos la.e)]
    rw [show ((-90 : ℚ) * 10 ^ la.e) = ((-(90 * 10 ^ la.e) : ℤ) : ℚ) by push_cast; ring]
    exact_mod_cast Iff.rfl
  have h2 : (la.m ≤ 90 * 10 ^ la.e) ↔ ((la.m : ℚ) / (10 : ℚ) ^ la.e ≤ 90) := by
    rw [div_le_iff₀ (hpos la.e)]
    rw [show ((90 : ℚ) * 10 ^ la.e) = (((90 * 10 ^ la.e) : ℤ) : ℚ) by push_cast; ring]
    exact_mod_cast Iff.rfl
  have h3 : (-(180 * 10 ^ lo.e) ≤ lo.m) ↔ (-180 ≤ (lo.m : ℚ) / (10 : ℚ) ^ lo.e) := by
    rw [le_div_iff₀ (hpos lo.e)]
    rw [show ((-180 : ℚ) * 10 ^ lo.e) = ((-(180 * 10 ^ lo.e) : ℤ) : ℚ) by push_cast; ring]
    exact_mod_cast Iff.rfl
  have h4 : (lo.m ≤ 180 * 10 ^ lo.e) ↔ ((lo.m : ℚ) / (10 : ℚ) ^ lo.e ≤ 180) := by
    rw [div_le_iff₀ (hpos lo.e)]
    rw [show ((180 : ℚ) * 10 ^ lo.e) = (((180 * 10 ^ lo.e) : ℤ) : ℚ) by push_cast; ring]
    exact_mod_cast Iff.rfl
  simp only [decide_eq_decide.mpr h1, decide_eq_decide.mpr h2,
    decide_eq_decide.mpr h3, decide_eq_decide.mpr h4]

/-- C6: `_validate_coordinates` returns true exactly when both arguments
convert to finite numbers with the latitude in [-90, 90] and the longitude in
[-180, 180]; the boundary values are valid, and a NaN, infinite or
non-convertible argument gives false.  The function is total, so it returns
false rather than raising on such inputs. -/
theorem C6_validate_iff (v1 v2 : FloatVal) :
    _validate_coordinates v1 v2 = true ↔
      ∃ la lo : ℚ, v1 = .finite la ∧ v2 = .finite lo ∧
        -90 ≤ la ∧ la ≤ 90 ∧ -180 ≤ lo ∧ lo ≤ 180 := by
  cases v1 <;> cases v2 <;> simp [_validate_coordinates]
  tauto

/-- C10: a non-string input makes `extract_coords_from_text` return `None`
immediately (the `isinstance` guard), without raising. -/
theorem C10_nonstring_none (v : PyVal) (h : ∀ s : String, v ≠ .str s) :
    extract_coords_from_text v = none := by
  cases v with
  | str s => exact absurd rfl (h s)
  | none_v => rfl
  | num q => rfl
  | nan => rfl

/-- Witness for C10 at the concrete non-string input `None`. -/
theorem C10_witness : extract_coords_from_text PyVal.none_v = none :=
  C10_nonstring_none PyVal.none_v (fun _ h => PyVal.noConfusion h)

/-- C5: when the cleaned text contains at least two decimal numbers, the
first two (`n1`, `n2`) decide the outcome: `(n1, n2)` if that pair validates
as (lat, lon), otherwise `(n2, n1)` if the swapped pair validates, the first
ordering preferred. -/
theorem C5_first_two_numbers (s : String) (n1 n2 : Dec) (rest : List Dec)
    (h : findNumbers (cleanText (pyStrip s.data)) = n1 :: n2 :: rest) :
    (validateQ n1.toRat n2.toRat = true →
      extractedCoords (.str s) = some (n1.toRat, n2.toRat)) ∧
    (validateQ n1.toRat n2.toRat = false → validateQ n2.toRat n1.toRat = true →
      extractedCoords (.str s) = some (n2.toRat, n1.toRat)) := by
  constructor
  · intro hv
    have hv' : validateDec n1 n2 = true := by rw [validateDec_eq_validateQ]; exact hv
    simp [extractedCoords, extract_coords_from_text, extract_coords_from_string,
      stepNumbers, h, hv']
  · intro hv1 hv2
    have hv1' : validateDec n1 n2 = false := by rw [validateDec_eq_validateQ]; exact hv1
    have hv2' : validateDec n2 n1 = true := by rw [validateDec_eq_validateQ]; exact hv2
    simp [extractedCoords, extract_coords_from_text, extract_coords_from_string,
      stepNumbers, h, hv1', hv2']

/-- Witness for C5: the already-clean numeric text of the spec's example. -/
theorem C5_witness :
    extractedCoords (.str "-23.5613,-46.6565") = some (-23.5613, -46.6565) := by
  have h := (C5_first_two_numbers "-23.5613,-46.6565" ⟨-235613, 4⟩ ⟨-466565, 4⟩ []
    (by decide)).1 (by rw [← validateDec_eq_validateQ]; decide)
  rw [h]
  norm_num [Dec.toRat]

/-- C2, counterexample: on the spec's own directions-fragment example the
generic two-number scan fires first (both numbers lie inside the latitude
range), so the function returns the `!2d`/`!3d` numbers in text order —
(lon, lat) — not the claimed (lat, lon). -/
theorem C2_counterexample :
    extractedCoords (.str "...!2d-46.6565!3d-23.5613...") = some (-46.6565, -23.5613) ∧
    ((-46.6565 : ℚ), (-23.5613 : ℚ)) ≠ ((-23.5613 : ℚ), (-46.6565 : ℚ)) := by
  constructor
  · have h : extract_coords_from_text (.str "...!2d-46.6565!3d-23.5613...") =
        some (⟨-466565, 4⟩, ⟨-235613, 4⟩) := by decide
    simp only [extractedCoords, h, Option.map_some']
    norm_num [Dec.toRat]
  · intro h
    rw [Prod.ext_iff] at h
    have := h.1
    norm_num at this

/-- C2, amended: the directions-marker pattern only decides when the earlier
strategies fail — when the generic two-number scan and the `@` pattern
produce nothing, a text whose first directions match is `!2d{lon}!3d{lat}`
with a validating (lat, lon) pair yields latitude from the `!3d` number and
longitude from the `!2d` number. -/
theorem C2_dir_fallback (s : String) (lon2 lat3 : Dec) (ms : List (Bool × Dec × Dec))
    (hnum : stepNumbers (cleanText (pyStrip s.data)) = none)
    (hat : stepAt (cleanText (pyStrip s.data)) = none)
    (hdir : dirFindall (cleanText (pyStrip s.data)) = (false, lon2, lat3) :: ms)
    (hval : validateQ lat3.toRat lon2.toRat = true) :
    extractedCoords (.str s) = some (lat3.toRat, lon2.toRat) := by
  have hv : validateDec lat3 lon2 = true := by rw [validateDec_eq_validateQ]; exact hval
  simp [extractedCoords, extract_coords_from_text, extract_coords_from_string, hnum, hat,
    stepDir, hdir, firstValidDir, dirLatLon, hv]

/-- Witness for C2's amended theorem: leading out-of-range numbers disable the
generic scan, so the `!2d…!3d…` marker decides and latitude comes from the
`!3d` number. -/
theorem C2_witness :
    extractedCoords (.str "9999.9 8888.8 !2d-46.6565!3d-23.5613") =
      some (-23.5613, -46.6565) := by
  have h := C2_dir_fallback "9999.9 8888.8 !2d-46.6565!3d-23.5613" ⟨-466565, 4⟩ ⟨-235613, 4⟩ []
    (by decide) (by decide) (by decide) (by rw [← validateDec_eq_validateQ]; decide)
  rw [h]
  norm_num [Dec.toRat]

/-- Validation implies the row survived the NaN drop: a validated row has two
finite coordinates, and a finite value is not NaN. -/
theorem validRow_imp_notNanRow {α : Type} (r : α × FloatVal × FloatVal)
    (h : validRow r = true) : notNanRow r = true := by
  obtain ⟨x, y, z⟩ := r
  cases y <;> cases z <;> simp_all [validRow, notNanRow, _validate_coordinates]

/-- C9: every row of the frame returned by `clean_data` passes
`_validate_coordinates`; on a frame with both coordinate columns the result is
exactly the coerced rows that validate (the NaN drop is subsumed by
validation), so failing rows are dropped and validating rows are kept. -/
theorem C9_clean_data_invariant {α : Type} (hasLat hasLon : Bool)
    (rows : List (α × FloatVal × FloatVal)) :
    (∀ r ∈ clean_data hasLat hasLon rows, _validate_coordinates r.2.1 r.2.2 = true) ∧
    (clean_data true true rows = (rows.map coerceRow).filter validRow) ∧
    (∀ r ∈ rows, validRow (coerceRow r) = true →
      coerceRow r ∈ clean_data true true rows) := by
  have hmerge : ∀ rs : List (α × FloatVal × FloatVal),
      (rs.filter notNanRow).filter validRow = rs.filter validRow := by
    intro rs
    rw [List.filter_filter]
    apply List.filter_congr
    intro a _
    cases hv : validRow a with
    | true => simp [hv, validRow_imp_notNanRow a hv]
    | false => simp [hv]
  refine ⟨?_, ?_, ?_⟩
  · intro r hr
    unfold clean_data at hr
    split at hr
    · exact (List.mem_filter.mp hr).2
    · exact absurd hr (List.not_mem_nil r)
  · unfold clean_data
    simp only [Bool.and_self, if_true]
    exact hmerge _
  · intro r hr hv
    unfold clean_data
    simp only [Bool.and_self, if_true]
    rw [hmerge]
    exact List.mem_filter.mpr ⟨List.mem_map_of_mem coerceRow hr, hv⟩

/-- Characterization of a successful `detectField`: the target is the
canonical name, and the renamed column was found through one of the
synonyms. -/
theorem detectField_some {cols : List String} {std : String} {kws : List String}
    {p : String × String} (h : detectField cols std kws = some p) :
    p.2 = std ∧ ∃ kw ∈ kws, lowerGet cols kw = some p.1 := by
  unfold detectField at h
  split at h
  · exact absurd h (by simp)
  · cases hf : kws.find? (fun kw => (lowerGet cols kw).isSome) with
    | none => rw [hf] at h; exact absurd h (by simp)
    | some kw =>
      rw [hf] at h
      dsimp only at h
      cases hg : lowerGet cols kw with
      | none => rw [hg] at h; exact absurd h (by simp)
      | some orig =>
        rw [hg] at h
        dsimp only at h
        obtain rfl := Option.some_injective _ h
        exact ⟨rfl, kw, List.mem_of_find?_eq_some hf, hg⟩

/-- Mapping the second components over a `filterMap` whose results carry the
source's image under `g` in their second component gives a sublist of
`l.map g`. -/
theorem map_snd_filterMap_sublist {α β γ : Type} (f : α → Option (γ × β)) (l : List α)
    (g : α → β) (hf : ∀ a b, f a = some b → b.2 = g a) :
    ((l.filterMap f).map Prod.snd).Sublist (l.map g) := by
  induction l with
  | nil => simp
  | cons a l ih =>
    rw [List.filterMap_cons]
    cases hfa : f a with
    | none => rw [List.map_cons]; exact ih.cons (g a)
    | some b => rw [List.map_cons, List.map_cons, hf a b hfa]; exact ih.cons₂ (g a)

/-- C4, amended: every entry of the rename map sends a column whose lowercase
form is a synonym of its canonical target; no canonical field is mapped
twice; when a canonical field is absent and some synonym is present, the
first present synonym (in keyword order) decides which column is renamed; and
on the columns `["lat", "lng", "title"]` only Latitude and Longitude are
renamed — `"title"` is not in the Name synonym list, so it stays. -/
theorem C4_resolver_amended :
    (∀ cols : List String, ∀ p ∈ _auto_detect_and_standardize_columns cols,
      ∃ kws, (p.2, kws) ∈ keywords ∧ pyLower p.1 ∈ kws ∧ p.1 ∈ cols) ∧
    (∀ cols : List String,
      ((_auto_detect_and_standardize_columns cols).map Prod.snd).Nodup) ∧
    (∀ cols std kws, (std, kws) ∈ keywords → cols.contains std = false →
      ∀ kw0 ∈ kws, (lowerGet cols kw0).isSome = true →
      ∃ kw c, kws.find? (fun k => (lowerGet cols k).isSome) = some kw ∧
        lowerGet cols kw = some c ∧
        (c, std) ∈ _auto_detect_and_standardize_columns cols) ∧
    renameColumns ["lat", "lng", "title"] = ["Latitude", "Longitude", "title"] := by
  refine ⟨?_, ?_, ?_, by decide⟩
  · intro cols p hp
    obtain ⟨q, hq, hdet⟩ := List.mem_filterMap.mp hp
    obtain ⟨h2, kw, hkw, hg⟩ := detectField_some hdet
    have horig := List.find?_some hg
    have heq : pyLower p.1 = kw := by simpa using horig
    refine ⟨q.2, ?_, ?_, ?_⟩
    · rw [h2]; exact Prod.mk.eta ▸ hq
    · rw [heq]; exact hkw
    · exact List.mem_reverse.mp (List.mem_of_find?_eq_some hg)
  · intro cols
    apply List.Nodup.sublist
      (map_snd_filterMap_sublist (fun p => detectField cols p.1 p.2) keywords Prod.fst ?_)
    · decide
    · intro a b hab
      exact (detectField_some hab).1
  · intro cols std kws hk hcont kw0 hkw0 hsome
    have hfind : (kws.find? (fun k => (lowerGet cols k).isSome)).isSome :=
      List.find?_isSome.mpr ⟨kw0, hkw0, hsome⟩
    obtain ⟨kw, hkw⟩ := Option.isSome_iff_exists.mp hfind
    have hlg : (lowerGet cols kw).isSome := by simpa using List.find?_some hkw
    obtain ⟨c, hc⟩ := Option.isSome_iff_exists.mp hlg
    refine ⟨kw, c, hkw, hc, ?_⟩
    have hstd : std ∉ cols := by simpa using hcont
    exact List.mem_filterMap.mpr ⟨(std, kws), hk, by simp [detectField, hstd, hkw, hc]⟩

/-- C4, counterexample: the columns `["lat", "lng", "title"]` of the claim
produce a rename map exposing only Latitude and Longitude; `"title"` is not
among the Name synonyms (`"título"` is), so no column is renamed to Nome. -/
theorem C4_counterexample :
    _auto_detect_and_standardize_columns ["lat", "lng", "title"] =
      [("lat", "Latitude"), ("lng", "Longitude")] ∧
    "Nome" ∉ (_auto_detect_and_standardize_columns ["lat", "lng", "title"]).map Prod.snd := by
  decide

/-- C3, amended: `optimize_route_online` performs no coordinate filtering and
no index remapping before its first network request — every index other than
`start_node` and `end_node` is submitted as a job with its row's coordinates
as they stand (valid or not), under its original index; and the only way the
solve ends before a network call is an out-of-range start or end index (the
caught `IndexError`), not a small point count. -/
theorem C3_no_prefiltering (df : List (FloatVal × FloatVal)) (s e : ℕ) :
    ((s < df.length ∧ e < df.length) →
      ∃ p, optimize_route_online_payload df s e = some p ∧
        (∀ i (hi : i < df.length), i ≠ s → i ≠ e →
          (i, (df.get ⟨i, hi⟩).2, (df.get ⟨i, hi⟩).1) ∈ p.jobs) ∧
        (∀ j ∈ p.jobs, j.1 ≠ s ∧ j.1 ≠ e ∧
          ∃ hj : j.1 < df.length, j.2 = ((df.get ⟨j.1, hj⟩).2, (df.get ⟨j.1, hj⟩).1))) ∧
    ((df.length ≤ s ∨ df.length ≤ e) → optimize_route_online_payload df s e = none) := by
  constructor
  · rintro ⟨hs, he⟩
    have hs' : s < (df.map (fun r => (r.2, r.1))).length := by simpa using hs
    have he' : e < (df.map (fun r => (r.2, r.1))).length := by simpa using he
    refine ⟨⟨(df.map (fun r => (r.2, r.1))).enum.filter (fun q => q.1 != s && q.1 != e),
             (df.map (fun r => (r.2, r.1))).get ⟨s, hs'⟩,
             (df.map (fun r => (r.2, r.1))).get ⟨e, he'⟩⟩, ?_, ?_, ?_⟩
    · unfold optimize_route_online_payload
      exact dif_pos ⟨hs', he'⟩
    · intro i hi his hie
      apply List.mem_filter.mpr
      refine ⟨?_, ?_⟩
      · apply List.mem_enum_iff_get?.mpr
        rw [List.get?_map, List.get?_eq_get hi]
        rfl
      · simp [his, hie]
    · intro j hj
      have hmem := (List.mem_filter.mp hj).1
      have hpred := (List.mem_filter.mp hj).2
      simp only [bne_iff_ne, Bool.and_eq_true, decide_eq_true_eq] at hpred
      have hget := List.mem_enum_iff_get?.mp hmem
      rw [List.get?_map] at hget
      cases hq : df.get? j.1 with
      | none => rw [hq] at hget; exact absurd hget (by simp)
      | some row =>
        rw [hq] at hget
        obtain ⟨hlt, hrow⟩ := List.get?_eq_some.mp hq
        refine ⟨hpred.1, hpred.2, hlt, ?_⟩
        rw [hrow]
        exact (Option.some_injective _ hget).symm
  · intro hor
    unfold optimize_route_online_payload
    rw [dif_neg]
    simp only [List.length_map]
    omega

/-- C3, counterexample: a frame whose point 0 has NaN coordinates, solved with
start 1 and end 2, submits point 0 as a job — the invalid point is not
dropped; and a single-point frame with start = end = 0 still produces a
payload, so the solve does not abort before the network call although fewer
than 2 points are present. -/
theorem C3_counterexample :
    optimize_route_online_payload
        [(FloatVal.nan, FloatVal.nan), (.finite 1, .finite 2), (.finite 3, .finite 4)] 1 2 =
      some ⟨[(0, FloatVal.nan, FloatVal.nan)], (.finite 2, .finite 1), (.finite 4, .finite 3)⟩ ∧
    _validate_coordinates FloatVal.nan FloatVal.nan = false ∧
    optimize_route_online_payload [(.finite 1, .finite 2)] 0 0 =
      some ⟨[], (.finite 2, .finite 1), (.finite 2, .finite 1)⟩ := by
  refine ⟨?_, rfl, ?_⟩ <;> rfl

/-- Putting distinct start and end nodes back in front of the remaining nodes
restores a permutation of `range n`. -/
theorem cons_cons_filter_ne_perm (n s e : ℕ) (hs : s < n) (he : e < n) (hne : s ≠ e) :
    (s :: e :: (List.range n).filter (fun i => i != s && i != e)).Perm (List.range n) := by
  have hnodup := List.nodup_range n
  have h1 : (List.range n).Perm (s :: (List.range n).erase s) :=
    List.perm_cons_erase (List.mem_range.mpr hs)
  have hmem_e : e ∈ (List.range n).erase s :=
    (List.mem_erase_of_ne hne.symm).mpr (List.mem_range.mpr he)
  have h2 : ((List.range n).erase s).Perm (e :: ((List.range n).erase s).erase e) :=
    List.perm_cons_erase hmem_e
  have hfe : ((List.range n).erase s).erase e =
      (List.range n).filter (fun i => i != s && i != e) := by
    rw [hnodup.erase_eq_filter s, (hnodup.filter _).erase_eq_filter e, List.filter_filter]
    exact List.filter_congr (fun a _ => Bool.and_comm _ _)
  rw [← hfe]
  exact (h2.symm.cons s).trans h1.symm

/-- Same for a shared start and end node: the filter removes only that node,
and putting it back once restores a permutation of `range n`. -/
theorem cons_filter_self_perm (n s : ℕ) (hs : s < n) :
    (s :: (List.range n).filter (fun i => i != s && i != s)).Perm (List.range n) := by
  have hnodup := List.nodup_range n
  have h1 : (List.range n).Perm (s :: (List.range n).erase s) :=
    List.perm_cons_erase (List.mem_range.mpr hs)
  have hf : (List.range n).erase s = (List.range n).filter (fun i => i != s && i != s) := by
    rw [hnodup.erase_eq_filter s]
    exact List.filter_congr (fun a _ => (Bool.and_self _).symm)
  rw [← hf]
  exact h1.symm

/-- Every interior node of a feasible solution is a real point index distinct
from the start and end nodes. -/
theorem RoutingSolution.mid_mem {n s e : ℕ} (sol : RoutingSolution n s e) :
    ∀ i ∈ sol.mid, i < n ∧ i ≠ s ∧ i ≠ e := by
  intro i hi
  have hmem := (sol.mid_perm.mem_iff).mp hi
  have h1 := List.mem_filter.mp hmem
  have h2 := h1.2
  simp only [bne_iff_ne, Bool.and_eq_true] at h2
  exact ⟨List.mem_range.mp h1.1, h2.1, h2.2⟩

/-- The route-extraction loop of `ortools_optimizer` yields the node sequence
start node, interior nodes, end node. -/
theorem extractedRouteNodes_eq {n s e : ℕ} (sol : RoutingSolution n s e) :
    extractedRouteNodes n s e sol = s :: sol.mid ++ [e] := by
  have h : ∀ i ∈ sol.mid, manager_IndexToNode n s e i = i := by
    intro i hi
    obtain ⟨hlt, _, _⟩ := sol.mid_mem i hi
    unfold manager_IndexToNode
    rw [if_neg (by omega), if_neg (by omega)]
  have h1 : manager_IndexToNode n s e n = s := by
    unfold manager_IndexToNode
    rw [if_pos rfl]
  have h2 : manager_IndexToNode n s e (n + 1) = e := by
    unfold manager_IndexToNode
    rw [if_neg (by omega), if_pos rfl]
  unfold extractedRouteNodes
  rw [List.map_append, List.map_cons, List.map_congr_left h, h1]
  simp [h2]

/-- C1, amended: on more than 2 points with in-range start and end, any
feasible OR-Tools solution makes `ortools_optimizer` return the points
reindexed by a route that is a permutation of the point indices from
`start_node` to `end_node` when the two differ; when `start_node = end_node`
the returned route is that permutation with the start index repeated at the
end, so the frame gains one extra row holding the start point a second
time. -/
theorem C1_route_structure {P : Type} [Inhabited P] (df : List P) (s e : ℕ)
    (sol : RoutingSolution df.length s e)
    (hn : 2 < df.length) (hs : s < df.length) (he : e < df.length) :
    (s ≠ e → ∃ idxs : List ℕ, idxs.Perm (List.range df.length) ∧
      idxs.head? = some s ∧ idxs.getLast? = some e ∧
      ortools_optimizer df s e (some sol) = idxs.map (fun i => df.getD i default)) ∧
    (s = e → ∃ idxs : List ℕ, idxs.Perm (List.range df.length) ∧
      idxs.head? = some s ∧
      ortools_optimizer df s e (some sol) = (idxs ++ [s]).map (fun i => df.getD i default)) := by
  have hopt : ortools_optimizer df s e (some sol) =
      (extractedRouteNodes df.length s e sol).map (fun i => df.getD i default) := by
    unfold ortools_optimizer
    rw [if_neg (by omega)]
  rw [extractedRouteNodes_eq sol] at hopt
  constructor
  · intro hne
    refine ⟨s :: sol.mid ++ [e], ?_, rfl, ?_, ?_⟩
    · have p1 : ((s :: sol.mid) ++ [e]).Perm (e :: s :: sol.mid) :=
        List.perm_append_singleton e (s :: sol.mid)
      have p2 : (e :: s :: sol.mid).Perm (s :: e :: sol.mid) := List.Perm.swap s e sol.mid
      have p3 : (s :: e :: sol.mid).Perm
          (s :: e :: (List.range df.length).filter (fun i => i != s && i != e)) :=
        ((sol.mid_perm).cons e).cons s
      exact ((p1.trans p2).trans p3).trans (cons_cons_filter_ne_perm df.length s e hs he hne)
    · exact List.getLast?_concat _
    · exact hopt
  · intro heq
    subst heq
    refine ⟨s :: sol.mid, ?_, rfl, ?_⟩
    · exact ((sol.mid_perm).cons s).trans (cons_filter_self_perm df.length s hs)
    · exact hopt

/-- Witness for C1's amended theorem at a concrete 4-point frame with
distinct start and end. -/
theorem C1_witness :
    ∃ idxs : List ℕ, idxs.Perm (List.range 4) ∧ idxs.head? = some 0 ∧
      idxs.getLast? = some 3 ∧
      ortools_optimizer [10, 20, 30, 40] 0 3 (some ⟨[2, 1], by decide⟩) =
        idxs.map (fun i => [10, 20, 30, 40].getD i default) :=
  (C1_route_structure [10, 20, 30, 40] 0 3 ⟨[2, 1], by decide⟩ (by norm_num) (by norm_num)
    (by norm_num)).1 (by norm_num)

/-- C1, counterexample: with `start_node = end_node = 0` on a 3-point frame,
the extracted route visits point 0 twice (once as the vehicle's start index
and once as its end index), so the returned frame has 4 rows with the start
point duplicated — not a permutation of the 3 input points. -/
theorem C1_counterexample :
    ortools_optimizer [10, 20, 30] 0 0 (some ⟨[1, 2], by decide⟩) = [10, 20, 30, 10] ∧
    ([10, 20, 30, 10] : List ℕ).count 10 = 2 ∧ ([10, 20, 30] : List ℕ).count 10 = 1 ∧
    ¬ ([10, 20, 30, 10] : List ℕ).Perm [10, 20, 30] := by
  refine ⟨by decide, by decide, by decide, by decide⟩

/-- Half-angle form of the haversine intermediate. -/
theorem sin_sq_half_eq (d : ℝ) : Real.sin (d / 2) ^ 2 = 1 / 2 - Real.cos d / 2 := by
  rw [Real.sin_sq_eq_half_sub, show 2 * (d / 2) = d by ring]

/-- The haversine intermediate `a` lies in `[0, 1]` for all real inputs: it
equals `(1 - cos θ)/2` for the central angle `θ`, by the spherical law of
cosines.  In particular `math.sqrt(1 - a)` in the code never receives a
negative argument. -/
theorem haversineIntermediate_bounds (p1 p2 dl : ℝ) :
    0 ≤ Real.sin ((p2 - p1) / 2) ^ 2 + Real.cos p1 * Real.cos p2 * Real.sin (dl / 2) ^ 2 ∧
      Real.sin ((p2 - p1) / 2) ^ 2 + Real.cos p1 * Real.cos p2 * Real.sin (dl / 2) ^ 2 ≤ 1 := by
  have hs1 := sin_sq_half_eq (p2 - p1)
  have hs2 := sin_sq_half_eq dl
  have hc : Real.cos (p2 - p1) = Real.cos p2 * Real.cos p1 + Real.sin p2 * Real.sin p1 :=
    Real.cos_sub p2 p1
  have h1 := Real.sin_sq_add_cos_sq p1
  have h2 := Real.sin_sq_add_cos_sq p2
  have hx1 : -1 ≤ Real.cos dl := Real.neg_one_le_cos dl
  have hx2 : Real.cos dl ≤ 1 := Real.cos_le_one dl
  have hcc : 0 ≤ Real.cos p1 ^ 2 * (1 - Real.cos dl ^ 2) :=
    mul_nonneg (sq_nonneg _) (by nlinarith)
  constructor
  · nlinarith [sq_nonneg (Real.sin p1 - Real.sin p2),
      sq_nonneg (Real.cos p1 * Real.cos dl - Real.cos p2)]
  · nlinarith [sq_nonneg (Real.sin p1 + Real.sin p2),
      sq_nonneg (Real.cos p1 * Real.cos dl + Real.cos p2)]

/-- On `[0, 1]` the code's `atan2(sqrt(a), sqrt(1 - a))` is the arcsine of
`sqrt(a)` — the bridge between the implemented central-angle formula and the
standard haversine formula. -/
theorem atan2_sqrt_eq_arcsin {a : ℝ} (h0 : 0 ≤ a) (h1 : a ≤ 1) :
    atan2 (Real.sqrt a) (Real.sqrt (1 - a)) = Real.arcsin (Real.sqrt a) := by
  rcases lt_or_eq_of_le h1 with hlt | heq
  · have hpos : 0 < Real.sqrt (1 - a) := Real.sqrt_pos.mpr (by linarith)
    unfold atan2
    rw [if_pos hpos]
    have hsa1 : Real.sqrt a < 1 := by
      rw [← Real.sqrt_one]
      exact Real.sqrt_lt_sqrt h0 hlt
    rw [Real.arcsin_eq_arctan ⟨by linarith [Real.sqrt_nonneg a], hsa1⟩, Real.sq_sqrt h0]
  · subst heq
    rw [show (1 : ℝ) - 1 = 0 by ring, Real.sqrt_zero, Real.sqrt_one]
    unfold atan2
    rw [if_neg (lt_irrefl 0), if_neg (lt_irrefl 0), if_pos one_pos, Real.arcsin_one]

/-- C8: `haversine_distance` computes exactly the floor — truncation toward
zero of a nonnegative value — of the spec's haversine great-circle formula
with Earth radius 6 371 000 m on degree inputs converted to radians. -/
theorem C8_haversine_refines_spec (lat1 lon1 lat2 lon2 : ℝ) :
    haversine_distance lat1 lon1 lat2 lon2 = ⌊haversineSpecMeters lat1 lon1 lat2 lon2⌋ := by
  simp only [haversine_distance, haversineSpecMeters, hav, pyTrunc]
  obtain ⟨h0, h1⟩ := haversineIntermediate_bounds (math_radians lat1) (math_radians lat2)
    (math_radians lon2 - math_radians lon1)
  rw [atan2_sqrt_eq_arcsin h0 h1]
  have harc : 0 ≤ Real.arcsin (Real.sqrt (Real.sin ((math_radians lat2 - math_radians lat1) / 2) ^ 2 +
      Real.cos (math_radians lat1) * Real.cos (math_radians lat2) *
        Real.sin ((math_radians lon2 - math_radians lon1) / 2) ^ 2)) :=
    Real.arcsin_nonneg.mpr (Real.sqrt_nonneg _)
  rw [if_pos (by nlinarith)]
  congr 1
  ring

/-- C7, amended: `haversine_distance` is symmetric and zero on equal points;
but zero does not imply equality — integer truncation sends every sub-meter
great-circle distance to 0, far beyond floating precision. -/
theorem C7_symmetric_and_zero_on_equal :
    (∀ a1 o1 a2 o2 : ℝ, haversine_distance a1 o1 a2 o2 = haversine_distance a2 o2 a1 o1) ∧
    (∀ a o : ℝ, haversine_distance a o a o = 0) := by
  constructor
  · intro a1 o1 a2 o2
    simp only [haversine_distance]
    have hsin : ∀ x y : ℝ,
        Real.sin ((math_radians x - math_radians y) / 2) ^ 2 =
          Real.sin ((math_radians y - math_radians x) / 2) ^ 2 := by
      intro x y
      rw [show (math_radians x - math_radians y) / 2
          = -((math_radians y - math_radians x) / 2) by ring, Real.sin_neg]
      ring
    rw [hsin a2 a1, hsin o2 o1,
      mul_comm (Real.cos (math_radians a1)) (Real.cos (math_radians a2))]
  · intro a o
    simp only [haversine_distance, pyTrunc]
    rw [sub_self, sub_self]
    norm_num [Real.sin_zero, Real.sqrt_zero, Real.sqrt_one, atan2, Real.arctan_zero]

/-- C7, counterexample: two distinct points — same latitude, longitudes
differing by one millionth of a degree (about 0.11 m on the equator) — have
`haversine_distance` 0 although they are not equal; the difference is far
above floating precision. -/
theorem C7_zero_despite_unequal :
    haversine_distance 0 0 0 (1 / 1000000) = 0 ∧ (1 / 1000000 : ℝ) ≠ 0 := by
  have hpi := Real.pi_pos
  have hpilt : Real.pi < 3.15 := Real.pi_lt_d2
  constructor
  · simp only [haversine_distance, math_radians]
    simp only [zero_mul, sub_self, sub_zero, zero_div, Real.sin_zero, Real.cos_zero,
      one_mul, zero_add, show ((0 : ℝ) ^ 2 = 0) from by norm_num]
    set s : ℝ := 1 / 1000000 * (Real.pi / 180) / 2 with hs
    have hs_eq : s = Real.pi / 360000000 := by rw [hs]; ring
    have hs_pos : 0 < s := by rw [hs_eq]; positivity
    have hs_lt : s < Real.pi / 2 := by rw [hs_eq]; nlinarith
    have hsin_nonneg : 0 ≤ Real.sin s :=
      Real.sin_nonneg_of_nonneg_of_le_pi hs_pos.le (by nlinarith)
    have hcos_pos : 0 < Real.cos s := Real.cos_pos_of_mem_Ioo ⟨by nlinarith, hs_lt⟩
    rw [Real.sqrt_sq hsin_nonneg,
      show (1 : ℝ) - Real.sin s ^ 2 = Real.cos s ^ 2 from by
        nlinarith [Real.sin_sq_add_cos_sq s],
      Real.sqrt_sq hcos_pos.le]
    simp only [atan2]
    rw [if_pos hcos_pos, ← Real.tan_eq_sin_div_cos, Real.arctan_tan (by nlinarith) hs_lt]
    simp only [pyTrunc]
    rw [if_pos (by nlinarith)]
    rw [Int.floor_eq_zero_iff]
    constructor
    · nlinarith
    · rw [hs_eq]
      nlinarith
  · norm_num
